import Mathlib

/-!
# Verification of the GestionPro invoice/stock/sales core

Shallow embedding of the invoice lifecycle logic of the GestionPro
business-management application: the storage layer of
`server/routes.ts` (`DatabaseStorage`: `createInvoice`, `updateInvoice`,
`updateStockAfterInvoiceCreation`, `createSalesFromInvoice`,
`deleteInvoice`, client/product CRUD), the zod validation schemas of
`shared/schema.ts` and the route layer, and the client-side total
computation of the invoices page (`createMutation`).

Database tables are lists of rows; decimal columns are rationals;
JavaScript `toFixed(2)` is the 2-decimal rounding `round2`; the drizzle
query combinators `update ... set ... where`, `delete ... where` and
`select ... where` become `List.map` with a guard, `List.filter` and
`List.find?`.
-/

namespace GestionPro

/-- JavaScript `Number.prototype.toFixed(2)`, idealized on exact decimal
values: round to the nearest multiple of 1/100. -/
def round2 (q : ℚ) : ℚ := (round (100 * q) : ℚ) / 100

/-- `invoice.status === 'payee' || invoice.status === 'paid'`: the status
values that `updateInvoice` treats as settled (current enum value `payee`
plus the legacy value `paid`). -/
def paidLike (s : String) : Bool := s == "payee" || s == "paid"

/-- Row of the `clients` table (timestamp column omitted). -/
structure Client where
  id : Nat
  name : String
  email : Option String := none
  phone : Option String := none
  address : Option String := none
  company : Option String := none
  userId : String
deriving DecidableEq

/-- Row of the `products` table (timestamp column omitted). -/
structure Product where
  id : Nat
  name : String
  description : Option String := none
  priceHT : ℚ
  stock : Int
  categoryId : Option Nat := none
  userId : String
deriving DecidableEq

/-- Row of the `invoices` table (timestamp columns omitted). -/
structure Invoice where
  id : Nat
  number : String
  clientId : Nat
  status : String
  totalHT : ℚ
  tvaRate : ℚ
  totalTVA : ℚ
  totalTTC : ℚ
  notes : Option String := none
  userId : String
deriving DecidableEq

/-- Row of the `invoice_items` table.  The serial `id` column is never
read by any of the embedded logic (items are always fetched by
`invoiceId`), so it is not modelled. -/
structure InvoiceItem where
  invoiceId : Nat
  productId : Option Nat
  productName : String
  quantity : Int
  priceHT : ℚ
  totalHT : ℚ
deriving DecidableEq

/-- Row of the `sales` table.  As with `InvoiceItem`, the serial `id`
column is never read by the embedded logic and is not modelled. -/
structure Sale where
  invoiceId : Nat
  productId : Nat
  quantity : Int
  unitPrice : ℚ
  total : ℚ
  userId : String
deriving DecidableEq

/-- `InsertInvoice` (the drizzle-zod insert shape: `invoices` minus
`id`/`createdAt`). -/
structure InsertInvoice where
  number : String
  clientId : Nat
  status : String
  totalHT : ℚ
  tvaRate : ℚ
  totalTVA : ℚ
  totalTTC : ℚ
  notes : Option String := none
  userId : String
deriving DecidableEq

/-- One element of the `items` argument of `storage.createInvoice`:
`Omit<InsertInvoiceItem, 'invoiceId'>`. -/
structure InsertItem where
  productId : Option Nat
  productName : String
  quantity : Int
  priceHT : ℚ
  totalHT : ℚ
deriving DecidableEq

/-- `Partial<InsertInvoice>`: the patch accepted by
`insertInvoiceSchema.partial()` on `PUT /api/invoices/:id`.  Note that
`userId` is a patchable field (only `id` and `createdAt` are omitted by
the insert schema). -/
structure InvoicePatch where
  number : Option String := none
  clientId : Option Nat := none
  status : Option String := none
  totalHT : Option ℚ := none
  tvaRate : Option ℚ := none
  totalTVA : Option ℚ := none
  totalTTC : Option ℚ := none
  notes : Option (Option String) := none
  userId : Option String := none
deriving DecidableEq

/-- `Partial<InsertClient>`: the patch accepted by
`insertClientSchema.partial()` on `PUT /api/clients/:id`. -/
structure ClientPatch where
  name : Option String := none
  email : Option (Option String) := none
  phone : Option (Option String) := none
  address : Option (Option String) := none
  company : Option (Option String) := none
  userId : Option String := none
deriving DecidableEq

/-- `Partial<InsertProduct>` for `PUT /api/products/:id`. -/
structure ProductPatch where
  name : Option String := none
  description : Option (Option String) := none
  priceHT : Option ℚ := none
  stock : Option Int := none
  categoryId : Option (Option Nat) := none
  userId : Option String := none
deriving DecidableEq

/-- `Partial<InsertCategory>` for `PUT /api/categories/:id`. -/
structure CategoryPatch where
  name : Option String := none
  description : Option (Option String) := none
  userId : Option String := none
deriving DecidableEq

/-- Row of the `categories` table (timestamp column omitted). -/
structure Category where
  id : Nat
  name : String
  description : Option String := none
  userId : String
deriving DecidableEq

/-- drizzle `update(t).set(patch)`: apply the present fields of the
patch to an invoice row. -/
def applyInvoicePatch (p : InvoicePatch) (i : Invoice) : Invoice :=
  { i with
    number := p.number.getD i.number
    clientId := p.clientId.getD i.clientId
    status := p.status.getD i.status
    totalHT := p.totalHT.getD i.totalHT
    tvaRate := p.tvaRate.getD i.tvaRate
    totalTVA := p.totalTVA.getD i.totalTVA
    totalTTC := p.totalTTC.getD i.totalTTC
    notes := p.notes.getD i.notes
    userId := p.userId.getD i.userId }

/-- drizzle `update(clients).set(patch)`. -/
def applyClientPatch (p : ClientPatch) (c : Client) : Client :=
  { c with
    name := p.name.getD c.name
    email := p.email.getD c.email
    phone := p.phone.getD c.phone
    address := p.address.getD c.address
    company := p.company.getD c.company
    userId := p.userId.getD c.userId }

/-- drizzle `update(products).set(patch)`. -/
def applyProductPatch (p : ProductPatch) (x : Product) : Product :=
  { x with
    name := p.name.getD x.name
    description := p.description.getD x.description
    priceHT := p.priceHT.getD x.priceHT
    stock := p.stock.getD x.stock
    categoryId := p.categoryId.getD x.categoryId
    userId := p.userId.getD x.userId }

/-- drizzle `update(categories).set(patch)`. -/
def applyCategoryPatch (p : CategoryPatch) (c : Category) : Category :=
  { c with
    name := p.name.getD c.name
    description := p.description.getD c.description
    userId := p.userId.getD c.userId }

/-- The database state: one list per table of the invoice core, plus the
serial counter for `invoices.id` (the only serial id the code reads
back, via `.returning()`). -/
structure DB where
  clients : List Client := []
  products : List Product := []
  categories : List Category := []
  invoices : List Invoice := []
  invoiceItems : List InvoiceItem := []
  sales : List Sale := []
  nextInvoiceId : Nat := 1
deriving DecidableEq

/-- drizzle `update(t).set(f).where(q)` on a table: rewrite every row
matching `q`, leave the rest. -/
def updateWhere (q : α → Bool) (f : α → α) (l : List α) : List α :=
  l.map fun a => if q a then f a else a

/-- `storage.getClient(id, userId)`:
`select from clients where id = id and userId = userId` (first row). -/
def getClient (id : Nat) (userId : String) (db : DB) : Option Client :=
  db.clients.find? fun c => c.id == id && c.userId == userId

/-- `storage.getInvoice(id, userId)`. -/
def getInvoice (id : Nat) (userId : String) (db : DB) : Option Invoice :=
  db.invoices.find? fun i => i.id == id && i.userId == userId

/-- `storage.getProduct(id, userId)`. -/
def getProduct (id : Nat) (userId : String) (db : DB) : Option Product :=
  db.products.find? fun p => p.id == id && p.userId == userId

/-- `storage.updateClient(id, patch, userId)`. -/
def updateClient (id : Nat) (patch : ClientPatch) (userId : String) (db : DB) : DB :=
  { db with clients :=
      updateWhere (fun c => c.id == id && c.userId == userId) (applyClientPatch patch) db.clients }

/-- `storage.updateProduct(id, patch, userId)`. -/
def updateProduct (id : Nat) (patch : ProductPatch) (userId : String) (db : DB) : DB :=
  { db with products :=
      updateWhere (fun p => p.id == id && p.userId == userId) (applyProductPatch patch) db.products }

/-- `storage.updateCategory(id, patch, userId)`. -/
def updateCategory (id : Nat) (patch : CategoryPatch) (userId : String) (db : DB) : DB :=
  { db with categories :=
      updateWhere (fun c => c.id == id && c.userId == userId) (applyCategoryPatch patch) db.categories }

/-- The SQL stock clamp `GREATEST(0, stock - quantity)` used by both
stock-adjustment loops. -/
def stockDecrement (stock quantity : Int) : Int := max 0 (stock - quantity)

/-- One iteration of the stock loop: `update products set
stock = GREATEST(0, stock - item.quantity) where id = item.productId and
userId = userId`. -/
def stockStep (userId : String) (db : DB) (it : InvoiceItem) : DB :=
  let hit (p : Product) : Bool := (it.productId.getD 0 == p.id) && (p.userId == userId)
  let clamp (p : Product) : Product := { p with stock := stockDecrement p.stock it.quantity }
  { db with products := updateWhere hit clamp db.products }

/-- `updateStockAfterInvoiceCreation(items, userId)`: for each item with
a (truthy) productId, clamp-decrement that product's stock. -/
def updateStockAfterInvoiceCreation (items : List InvoiceItem) (userId : String) (db : DB) : DB :=
  (items.filter fun it => it.productId.isSome).foldl (stockStep userId) db

/-- Attach `invoiceId` to the inserted items
(`items.map(item => ({...item, invoiceId: newInvoice.id}))`). -/
def attachItems (invoiceId : Nat) (items : List InsertItem) : List InvoiceItem :=
  items.map fun it =>
    { invoiceId := invoiceId, productId := it.productId, productName := it.productName,
      quantity := it.quantity, priceHT := it.priceHT, totalHT := it.totalHT }

/-- `storage.createInvoice(invoice, items)`: insert the invoice row,
then (when the item list is non-empty) insert the items and immediately
run the stock adjustment.  Returns the new state and the created
invoice. -/
def createInvoice (inv : InsertInvoice) (items : List InsertItem) (db : DB) : DB × Invoice :=
  let newInvoice : Invoice :=
    { id := db.nextInvoiceId, number := inv.number, clientId := inv.clientId,
      status := inv.status, totalHT := inv.totalHT, tvaRate := inv.tvaRate,
      totalTVA := inv.totalTVA, totalTTC := inv.totalTTC, notes := inv.notes,
      userId := inv.userId }
  let db1 : DB := { db with invoices := db.invoices ++ [newInvoice],
                            nextInvoiceId := db.nextInvoiceId + 1 }
  if items.length > 0 then
    let itemsWithInvoiceId := attachItems newInvoice.id items
    let db2 : DB := { db1 with invoiceItems := db1.invoiceItems ++ itemsWithInvoiceId }
    (updateStockAfterInvoiceCreation itemsWithInvoiceId inv.userId db2, newInvoice)
  else
    (db1, newInvoice)

/-- The sale row built from one invoice item in `createSalesFromInvoice`
(`item.productId!` after the truthiness filter). -/
def saleOfItem (invoiceId : Nat) (userId : String) (it : InvoiceItem) : Sale :=
  { invoiceId := invoiceId, productId := it.productId.getD 0, quantity := it.quantity,
    unitPrice := it.priceHT, total := it.totalHT, userId := userId }

/-- `createSalesFromInvoice(invoiceId, userId)`: fetch the items of the
invoice (no tenant filter on this select, as in the source), build one
sale per item with a productId, and if any were built, insert them and
re-run the clamp-decrement stock loop over the same items. -/
def createSalesFromInvoice (invoiceId : Nat) (userId : String) (db : DB) : DB :=
  let items := db.invoiceItems.filter fun it => it.invoiceId == invoiceId
  let salesData := (items.filter fun it => it.productId.isSome).map (saleOfItem invoiceId userId)
  if salesData.length > 0 then
    let db1 : DB := { db with sales := db.sales ++ salesData }
    (items.filter fun it => it.productId.isSome).foldl (stockStep userId) db1
  else
    db

/-- `storage.updateInvoice(id, patch, userId)`: read the current
invoice, apply the patch, and when the new status is `payee`/`paid`
while the previously persisted status was not (with JavaScript optional
chaining, a missing current invoice also passes the check), run
`createSalesFromInvoice`. -/
def updateInvoice (id : Nat) (patch : InvoicePatch) (userId : String) (db : DB) : DB :=
  let currentInvoice := getInvoice id userId db
  let newInvoices :=
    updateWhere (fun i => i.id == id && i.userId == userId) (applyInvoicePatch patch) db.invoices
  let db1 : DB := { db with invoices := newInvoices }
  let newIsPaid : Bool :=
    match patch.status with
    | some s => paidLike s
    | none => false
  let currentNotPaid : Bool :=
    match currentInvoice with
    | some c => !(paidLike c.status)
    | none => true
  if newIsPaid && currentNotPaid then createSalesFromInvoice id userId db1 else db1

/-- `storage.deleteInvoice(id, userId)`: delete the sales referencing
the invoice (by `invoiceId` only), then its items (by `invoiceId` only),
then the invoice row (by `id` and `userId`). -/
def deleteInvoice (id : Nat) (userId : String) (db : DB) : DB :=
  let db1 : DB := { db with sales := db.sales.filter fun s => !(s.invoiceId == id) }
  let db2 : DB := { db1 with invoiceItems := db1.invoiceItems.filter fun it => !(it.invoiceId == id) }
  { db2 with invoices := db2.invoices.filter fun i => !(i.id == id && i.userId == userId) }

/-- The Invoice Status Transition Guard of `updateInvoice`, as a
standalone predicate: the requested status is paid-like while the
previously persisted status — when the invoice is visible to the
requesting tenant — is not (a missing invoice passes the check, as with
JavaScript optional chaining). -/
def settlementGuard (id : Nat) (patch : InvoicePatch) (u : String) (db : DB) : Bool :=
  (match patch.status with
   | some s => paidLike s
   | none => false)
  &&
  (match getInvoice id u db with
   | some c => !(paidLike c.status)
   | none => true)

/-- After-versus-before relation for one product row under clamped
stock decrements: if the prior stock was non-negative, the new stock is
no larger and still non-negative. -/
def stockRel (q p : Product) : Prop := 0 ≤ p.stock → q.stock ≤ p.stock ∧ 0 ≤ q.stock

/-! ## Client-side invoice total computation (invoices page, `createMutation`) -/

/-- One element of the `items` array of the invoice-creation form
(`createInvoiceFormSchema`): an optional product reference, a product
name, a numeric quantity and a decimal price string whose numeric value
is modelled directly. -/
structure FormItem where
  productId : Option Nat := none
  productName : String
  quantity : Int
  priceHT : ℚ
deriving DecidableEq

/-- `data.items.reduce((sum, item) => sum + item.quantity * parseFloat(item.priceHT), 0)`. -/
def rawTotalHT (items : List FormItem) : ℚ :=
  items.foldl (fun sum it => sum + it.quantity * it.priceHT) 0

/-- `totalHT.toFixed(2)`: the HT total stored on the created invoice. -/
def mutationTotalHT (items : List FormItem) : ℚ := round2 (rawTotalHT items)

/-- `totalHT * (tvaRateNum / 100)` before rounding. -/
def rawTotalTVA (items : List FormItem) (rate : ℚ) : ℚ := rawTotalHT items * (rate / 100)

/-- `totalTVA.toFixed(2)`: the TVA amount stored on the created invoice. -/
def mutationTotalTVA (items : List FormItem) (rate : ℚ) : ℚ := round2 (rawTotalTVA items rate)

/-- `totalTTC.toFixed(2)` where `totalTTC = totalHT + totalTVA` is
computed on the unrounded values. -/
def mutationTotalTTC (items : List FormItem) (rate : ℚ) : ℚ :=
  round2 (rawTotalHT items + rawTotalTVA items rate)

/-- The item payload built by `createMutation`: per-line `totalHT` is
`(item.quantity * parseFloat(item.priceHT)).toFixed(2)`. -/
def mutationItems (items : List FormItem) : List InsertItem :=
  items.map fun it =>
    { productId := it.productId, productName := it.productName, quantity := it.quantity,
      priceHT := it.priceHT, totalHT := round2 (it.quantity * it.priceHT) }

/-! ## Server-side request validation (`createInvoiceSchema`)

The zod schemas produced by drizzle-zod check only that each required
column is present with the right primitive type; decimal columns arrive
as strings (any content), `status` is a plain varchar string (no enum
check), `quantity` a plain number (no lower bound) and the items array
has no minimum length.  A raw request field is `none` when absent from
the JSON body. -/

/-- The raw JSON shape of one entry of `body.items`
(`insertInvoiceItemSchema.omit({ invoiceId: true })`). -/
structure RawItem where
  productId : Option (Option Nat) := none
  productName : Option String := none
  quantity : Option Int := none
  priceHT : Option ℚ := none
  totalHT : Option ℚ := none
deriving DecidableEq

/-- The raw JSON shape of `body.invoice`
(`insertInvoiceSchema.omit({ userId: true })`); `status` is optional
because the column has a database default. -/
structure RawInvoiceFields where
  number : Option String := none
  clientId : Option Nat := none
  status : Option String := none
  totalHT : Option ℚ := none
  tvaRate : Option ℚ := none
  totalTVA : Option ℚ := none
  totalTTC : Option ℚ := none
  notes : Option (Option String) := none
deriving DecidableEq

/-- zod parse of one item: fails only when a required field is absent. -/
def parseItem (r : RawItem) : Option InsertItem :=
  match r.productName, r.quantity, r.priceHT, r.totalHT with
  | some n, some q, some p, some t =>
      some { productId := r.productId.getD none, productName := n, quantity := q,
             priceHT := p, totalHT := t }
  | _, _, _, _ => none

/-- zod parse of the invoice header, combined with the route's
`{ ...invoice, userId }` and the database default for `status`: fails
only when a required field is absent. -/
def parseInvoiceFields (r : RawInvoiceFields) (userId : String) : Option InsertInvoice :=
  match r.number, r.clientId, r.totalHT, r.tvaRate, r.totalTVA, r.totalTTC with
  | some n, some c, some h, some rt, some tv, some tt =>
      some { number := n, clientId := c, status := r.status.getD "en_attente", totalHT := h,
             tvaRate := rt, totalTVA := tv, totalTTC := tt, notes := r.notes.getD none,
             userId := userId }
  | _, _, _, _, _, _ => none

/-- `POST /api/invoices`: validate the body, then persist via
`storage.createInvoice`; `none` models the 400 response. -/
def postInvoices (userId : String) (inv : RawInvoiceFields) (items : List RawItem) (db : DB) :
    Option (DB × Invoice) :=
  match parseInvoiceFields inv userId, items.mapM parseItem with
  | some pinv, some pitems => some (createInvoice pinv pitems db)
  | _, _ => none

/-! ## Concrete states used by counterexamples and witnesses -/

/-- A store holding one product of tenant A with stock 10. -/
def c1db : DB :=
  { products := [{ id := 1, name := "Widget", priceHT := 1000, stock := 10, userId := "A" }] }

/-- A pending invoice header for tenant A. -/
def c1inv : InsertInvoice :=
  { number := "FAC-2025-001", clientId := 1, status := "en_attente", totalHT := 3000,
    tvaRate := 18, totalTVA := 540, totalTTC := 3540, userId := "A" }

/-- A line item referencing product 1 with quantity 3. -/
def c1item : InsertItem :=
  { productId := some 1, productName := "Widget", quantity := 3, priceHT := 1000, totalHT := 3000 }

/-- A store where invoice 7 with one item and one sale belongs to
tenant A. -/
def c2db : DB :=
  { invoices := [{ id := 7, number := "FAC-2025-007", clientId := 1, status := "payee",
                   totalHT := 1000, tvaRate := 18, totalTVA := 180, totalTTC := 1180,
                   userId := "A" }],
    invoiceItems := [{ invoiceId := 7, productId := some 3, productName := "Widget",
                       quantity := 1, priceHT := 1000, totalHT := 1000 }],
    sales := [{ invoiceId := 7, productId := 3, quantity := 1, unitPrice := 1000,
                total := 1000, userId := "A" }],
    nextInvoiceId := 8 }

/-- A store holding one already-paid invoice of tenant A. -/
def w3db : DB :=
  { invoices := [{ id := 1, number := "FAC-2025-001", clientId := 1, status := "payee",
                   totalHT := 100, tvaRate := 18, totalTVA := 18, totalTTC := 118,
                   userId := "A" }],
    invoiceItems := [{ invoiceId := 1, productId := some 1, productName := "Widget",
                       quantity := 2, priceHT := 50, totalHT := 100 }],
    nextInvoiceId := 2 }

/-- A patch re-submitting the paid status. -/
def w3patch : InvoicePatch := { status := some "payee" }

/-- The two-line example invoice of the specification: (product A,
qty 3, priceHT 1000) and (ad-hoc item, qty 1, priceHT 500). -/
def exampleItems : List FormItem :=
  [{ productId := some 1, productName := "Produit A", quantity := 3, priceHT := 1000 },
   { productName := "Article libre", quantity := 1, priceHT := 500 }]

/-- A request body with an unknown status, a tax rate outside the
allowed set and a negative HT total. -/
def c5rawInv : RawInvoiceFields :=
  { number := some "FAC-2025-009", clientId := some 1, status := some "bogus",
    totalHT := some (-10), tvaRate := some 7, totalTVA := some 2, totalTTC := some 3 }

/-- A request item with quantity 0 and a negative unit price. -/
def c5rawItem : RawItem :=
  { productId := some none, productName := some "X", quantity := some 0,
    priceHT := some (-5), totalHT := some 0 }

/-- A store holding one pending invoice of tenant A, target of a status
update. -/
def c5updb : DB :=
  { invoices := [{ id := 7, number := "FAC-2025-007", clientId := 1, status := "en_attente",
                   totalHT := 10, tvaRate := 18, totalTVA := 2, totalTTC := 12,
                   userId := "A" }],
    nextInvoiceId := 8 }

/-- A store holding one product of tenant A with stock 2. -/
def w6db : DB :=
  { products := [{ id := 1, name := "Widget", priceHT := 100, stock := 2, userId := "A" }] }

/-- An invoice item requesting quantity 5 of product 1. -/
def w6item : InvoiceItem :=
  { invoiceId := 1, productId := some 1, productName := "Widget", quantity := 5,
    priceHT := 100, totalHT := 500 }

/-- A store holding one pending invoice of tenant A with one
product-referencing item and one ad-hoc item. -/
def w7db : DB :=
  { invoices := [{ id := 1, number := "FAC-2025-001", clientId := 1, status := "en_attente",
                   totalHT := 3500, tvaRate := 18, totalTVA := 630, totalTTC := 4130,
                   userId := "A" }],
    invoiceItems := [{ invoiceId := 1, productId := some 2, productName := "Produit A",
                       quantity := 3, priceHT := 1000, totalHT := 3000 },
                     { invoiceId := 1, productId := none, productName := "Article libre",
                       quantity := 1, priceHT := 500, totalHT := 500 }],
    nextInvoiceId := 2 }

/-- An invoice header created directly in the paid state. -/
def c8inv : InsertInvoice :=
  { number := "FAC-2025-002", clientId := 1, status := "payee", totalHT := 200,
    tvaRate := 18, totalTVA := 36, totalTTC := 236, userId := "A" }

/-- A product-referencing line item for the directly-paid invoice. -/
def c8item : InsertItem :=
  { productId := some 1, productName := "Widget", quantity := 2, priceHT := 100, totalHT := 200 }

/-- A store holding one row of each patchable entity, all owned by
tenant A. -/
def w10db : DB :=
  { clients := [{ id := 1, name := "Alice", userId := "A" }],
    products := [{ id := 1, name := "Widget", priceHT := 100, stock := 5, userId := "A" }],
    categories := [{ id := 1, name := "General", userId := "A" }],
    invoices := [{ id := 1, number := "FAC-2025-001", clientId := 1, status := "en_attente",
                   totalHT := 10, tvaRate := 18, totalTVA := 2, totalTTC := 12,
                   userId := "A" }],
    nextInvoiceId := 2 }

/-! ## Helper lemmas -/

theorem find?_updateWhere {α : Type} (q : α → Bool) (f : α → α) (p : α → Bool)
    (hpres : ∀ a, p (if q a then f a else a) = p a) (l : List α) :
    (updateWhere q f l).find? p = (l.find? p).map fun a => if q a then f a else a := by
  induction l with
  | nil => rfl
  | cons a l ih =>
    simp only [updateWhere, List.map_cons]
    cases hpa : p a with
    | false =>
      have h2 : p (if q a then f a else a) = false := (hpres a).trans hpa
      rw [List.find?_cons_of_neg _ (by simp [h2]), List.find?_cons_of_neg _ (by simp [hpa])]
      exact ih
    | true =>
      have h2 : p (if q a then f a else a) = true := (hpres a).trans hpa
      rw [List.find?_cons_of_pos _ h2, List.find?_cons_of_pos _ hpa]
      rfl

theorem stockStep_sales (u : String) (db : DB) (it : InvoiceItem) :
    (stockStep u db it).sales = db.sales := rfl

theorem stockStep_invoices (u : String) (db : DB) (it : InvoiceItem) :
    (stockStep u db it).invoices = db.invoices := rfl

theorem stockStep_invoiceItems (u : String) (db : DB) (it : InvoiceItem) :
    (stockStep u db it).invoiceItems = db.invoiceItems := rfl

theorem foldl_stockStep_sales (u : String) (its : List InvoiceItem) (db : DB) :
    (its.foldl (stockStep u) db).sales = db.sales := by
  induction its generalizing db with
  | nil => rfl
  | cons a l ih => simpa [List.foldl_cons, stockStep_sales] using ih (stockStep u db a)

theorem foldl_stockStep_invoices (u : String) (its : List InvoiceItem) (db : DB) :
    (its.foldl (stockStep u) db).invoices = db.invoices := by
  induction its generalizing db with
  | nil => rfl
  | cons a l ih => simpa [List.foldl_cons, stockStep_invoices] using ih (stockStep u db a)

theorem foldl_stockStep_invoiceItems (u : String) (its : List InvoiceItem) (db : DB) :
    (its.foldl (stockStep u) db).invoiceItems = db.invoiceItems := by
  induction its generalizing db with
  | nil => rfl
  | cons a l ih => simpa [List.foldl_cons, stockStep_invoiceItems] using ih (stockStep u db a)

theorem createSalesFromInvoice_sales (id : Nat) (u : String) (db : DB) :
    (createSalesFromInvoice id u db).sales =
      db.sales ++
        ((db.invoiceItems.filter fun it => it.invoiceId == id).filter
            fun it => it.productId.isSome).map (saleOfItem id u) := by
  by_cases h :
      ((((db.invoiceItems.filter fun it => it.invoiceId == id).filter
          fun it => it.productId.isSome).map (saleOfItem id u)).length > 0)
  · simp only [createSalesFromInvoice]
    rw [if_pos h, foldl_stockStep_sales]
  · have h0 :
        (((db.invoiceItems.filter fun it => it.invoiceId == id).filter
            fun it => it.productId.isSome).map (saleOfItem id u)) = [] :=
      List.length_eq_zero.mp (Nat.eq_zero_of_not_pos h)
    simp only [createSalesFromInvoice]
    rw [if_neg h, h0, List.append_nil]

theorem createSalesFromInvoice_invoices (id : Nat) (u : String) (db : DB) :
    (createSalesFromInvoice id u db).invoices = db.invoices := by
  by_cases h :
      ((((db.invoiceItems.filter fun it => it.invoiceId == id).filter
          fun it => it.productId.isSome).map (saleOfItem id u)).length > 0)
  · simp only [createSalesFromInvoice]
    rw [if_pos h, foldl_stockStep_invoices]
  · simp only [createSalesFromInvoice]
    rw [if_neg h]

theorem createSalesFromInvoice_invoiceItems (id : Nat) (u : String) (db : DB) :
    (createSalesFromInvoice id u db).invoiceItems = db.invoiceItems := by
  by_cases h :
      ((((db.invoiceItems.filter fun it => it.invoiceId == id).filter
          fun it => it.productId.isSome).map (saleOfItem id u)).length > 0)
  · simp only [createSalesFromInvoice]
    rw [if_pos h, foldl_stockStep_invoiceItems]
  · simp only [createSalesFromInvoice]
    rw [if_neg h]

theorem updateInvoice_already_paid (db : DB) (id : Nat) (u : String) (patch : InvoicePatch)
    (c : Invoice) (hc : getInvoice id u db = some c) (hpaid : paidLike c.status = true) :
    (updateInvoice id patch u db).sales = db.sales ∧
    (updateInvoice id patch u db).products = db.products ∧
    (updateInvoice id patch u db).invoiceItems = db.invoiceItems := by
  unfold updateInvoice
  simp [hc, hpaid]

theorem updateInvoice_fired_eq (db : DB) (id : Nat) (u : String) (patch : InvoicePatch)
    (s : String) (h2 : patch.status = some s) (h3 : paidLike s = true)
    (hcur : ∀ c, getInvoice id u db = some c → paidLike c.status = false) :
    updateInvoice id patch u db =
      createSalesFromInvoice id u
        { db with invoices :=
            (updateWhere (fun i => i.id == id && i.userId == u) (applyInvoicePatch patch)
              db.invoices) } := by
  unfold updateInvoice
  cases hget : getInvoice id u db with
  | none => simp [hget, h2, h3]
  | some c =>
    have hc := hcur c hget
    simp [hget, h2, h3, hc]

theorem updateInvoice_fired_sales (db : DB) (id : Nat) (u : String) (patch : InvoicePatch)
    (s : String) (h2 : patch.status = some s) (h3 : paidLike s = true)
    (hcur : ∀ c, getInvoice id u db = some c → paidLike c.status = false) :
    (updateInvoice id patch u db).sales =
      db.sales ++
        ((db.invoiceItems.filter fun it => it.invoiceId == id).filter
            fun it => it.productId.isSome).map (saleOfItem id u) := by
  rw [updateInvoice_fired_eq db id u patch s h2 h3 hcur, createSalesFromInvoice_sales]

/-! ## Claim theorems -/

/-- **C1**, counterexample: creating an invoice in the initial pending
state does NOT leave stock unchanged — with product 1 at stock 10, a
pending invoice for quantity 3 drops the stock to 7 during creation,
before any status transition. -/
theorem creation_changes_stock_counterexample :
    ((createInvoice c1inv [c1item] c1db).1.products.map Product.stock = [7]) ∧
    c1db.products.map Product.stock = [10] ∧ c1inv.status = "en_attente" :=
  ⟨rfl, rfl, rfl⟩

/-- **C1**, amended: creating an invoice with a line item referencing a
product of the same tenant immediately sets that product's stock to
`max 0 (stock - quantity)` — the stock adjustment runs at creation, not
only at the settlement transition. -/
theorem createInvoice_decrements_stock_at_creation
    (db : DB) (inv : InsertInvoice) (it : InsertItem) (pid : Nat) (p : Product)
    (hpid : it.productId = some pid)
    (hfind : db.products.find? (fun x => x.id == pid) = some p)
    (hu : p.userId = inv.userId) :
    ((createInvoice inv [it] db).1.products.find? fun x => x.id == pid) =
      some { p with stock := stockDecrement p.stock it.quantity } := by
  have hpeq : p.id = pid := by
    have := List.find?_some hfind
    simpa using this
  have hprod :
      (createInvoice inv [it] db).1.products =
        updateWhere (fun x => (it.productId.getD 0 == x.id) && (x.userId == inv.userId))
          (fun x => { x with stock := stockDecrement x.stock it.quantity }) db.products := by
    simp [createInvoice, attachItems, updateStockAfterInvoiceCreation, stockStep,
      List.filter, hpid]
  rw [hprod,
    find?_updateWhere _ _ _
      (fun a => by
        by_cases h : ((it.productId.getD 0 == a.id) && (a.userId == inv.userId)) = true <;>
          simp [h]),
    hfind]
  have hhit : ((it.productId.getD 0 == p.id) && (p.userId == inv.userId)) = true := by
    simp [hpid, hpeq, hu]
  rw [Option.map_some']
  rw [if_pos hhit]

/-- Witness for the amended C1: with product 1 at stock 10 owned by the
invoice's tenant, creation of a pending invoice for quantity 3 leaves
the product at stock 7. -/
theorem createInvoice_decrements_stock_at_creation_witness :
    c1item.productId = some 1 ∧
    c1db.products.find? (fun x => x.id == 1) =
      some { id := 1, name := "Widget", priceHT := 1000, stock := 10, userId := "A" } ∧
    ((createInvoice c1inv [c1item] c1db).1.products.find? fun x => x.id == 1) =
      some { id := 1, name := "Widget", priceHT := 1000, stock := 7, userId := "A" } := by
  refine ⟨rfl, rfl, ?_⟩
  exact createInvoice_decrements_stock_at_creation c1db c1inv c1item 1
    { id := 1, name := "Widget", priceHT := 1000, stock := 10, userId := "A" } rfl rfl rfl

/-- **C2** (code bug): tenant B deleting invoice 7 — owned by tenant A,
so the lookup under tenant B reports not-found — nevertheless removes
tenant A's sale and invoice-item rows, because the first two deletes of
`deleteInvoice` filter by `invoiceId` only; the invoice row itself,
whose delete does filter by tenant, survives. -/
theorem crossTenant_delete_removes_other_tenant_rows :
    getInvoice 7 "B" c2db = none ∧
    c2db.sales ≠ [] ∧
    c2db.invoiceItems ≠ [] ∧
    (deleteInvoice 7 "B" c2db).sales = [] ∧
    (deleteInvoice 7 "B" c2db).invoiceItems = [] ∧
    (deleteInvoice 7 "B" c2db).invoices = c2db.invoices :=
  ⟨rfl, by decide, by decide, rfl, rfl, rfl⟩

/-- **C3**: settlement side effects are guarded by the pending→paid
edge.  If the previously persisted status is already paid, any further
update (in particular re-submitting paid) adds no Sale rows and touches
no product stock; if the previous status is not paid and the new status
is paid, exactly one Sale per product-referencing item of the invoice
is appended. -/
theorem settlement_fires_once_on_pending_paid_edge
    (db : DB) (id : Nat) (u : String) (patch : InvoicePatch) (c : Invoice)
    (hc : getInvoice id u db = some c) :
    (paidLike c.status = true →
      (updateInvoice id patch u db).sales = db.sales ∧
      (updateInvoice id patch u db).products = db.products) ∧
    (∀ s, patch.status = some s → paidLike s = true → paidLike c.status = false →
      (updateInvoice id patch u db).sales.length =
        db.sales.length +
          ((db.invoiceItems.filter fun it => it.invoiceId == id).filter
              fun it => it.productId.isSome).length) := by
  constructor
  · intro hpaid
    have h := updateInvoice_already_paid db id u patch c hc hpaid
    exact ⟨h.1, h.2.1⟩
  · intro s h2 h3 hcp
    have hcur : ∀ c0, getInvoice id u db = some c0 → paidLike c0.status = false := by
      intro c0 hc0
      rw [hc] at hc0
      cases hc0
      exact hcp
    rw [updateInvoice_fired_sales db id u patch s h2 h3 hcur]
    simp

/-- Witness for C3: re-submitting `payee` on the already-paid invoice 1
changes neither the sales ledger nor any stock. -/
theorem settlement_fires_once_witness :
    (updateInvoice 1 w3patch "A" w3db).sales = w3db.sales ∧
    (updateInvoice 1 w3patch "A" w3db).products = w3db.products :=
  (settlement_fires_once_on_pending_paid_edge w3db 1 "A" w3patch
    { id := 1, number := "FAC-2025-001", clientId := 1, status := "payee", totalHT := 100,
      tvaRate := 18, totalTVA := 18, totalTTC := 118, userId := "A" } rfl).1 rfl

/-- 2-decimal rounding is the identity on values that are integer
multiples of 1/100. -/
theorem round2_intMul (q : ℚ) (n : ℤ) (h : 100 * q = n) : round2 q = q := by
  have hq : q = (n : ℚ) / 100 := by
    field_simp
    linarith [h]
  simp only [round2]
  rw [h, round_intCast, hq]

/-- 2-decimal rounding commutes with adding an integer multiple of
1/100. -/
theorem round2_add_intMul (x y : ℚ) (n : ℤ) (h : 100 * x = n) :
    round2 (x + y) = x + round2 y := by
  simp only [round2]
  have h1 : 100 * (x + y) = (n : ℚ) + 100 * y := by
    rw [← h]
    ring
  rw [h1, round_int_add]
  push_cast
  have hx : x = (n : ℚ) / 100 := by
    field_simp
    linarith [h]
  rw [hx]
  ring

/-- The form total reduce-loop is the sum of the per-line products. -/
theorem rawTotalHT_eq_sum (items : List FormItem) :
    rawTotalHT items = (items.map fun it => (it.quantity : ℚ) * it.priceHT).sum := by
  suffices h : ∀ a : ℚ,
      items.foldl (fun sum it => sum + (it.quantity : ℚ) * it.priceHT) a =
        a + (items.map fun it => (it.quantity : ℚ) * it.priceHT).sum by
    simpa [rawTotalHT] using h 0
  induction items with
  | nil => intro a; simp
  | cons x l ih =>
    intro a
    rw [List.foldl_cons, ih, List.map_cons, List.sum_cons, add_assoc]

/-- With 2-decimal unit prices, 100 times the raw HT total is an
integer. -/
theorem rawTotalHT_intMul (items : List FormItem)
    (hp : ∀ it ∈ items, ∃ k : ℕ, it.priceHT = (k : ℚ) / 100) :
    ∃ n : ℤ, 100 * rawTotalHT items = n := by
  rw [rawTotalHT_eq_sum]
  induction items with
  | nil => exact ⟨0, by simp⟩
  | cons x l ih =>
    obtain ⟨k, hk⟩ := hp x (by simp)
    obtain ⟨n, hn⟩ := ih fun it hit => hp it (by simp [hit])
    refine ⟨x.quantity * k + n, ?_⟩
    rw [List.map_cons, List.sum_cons, mul_add, hn, hk]
    push_cast
    ring

/-- **C4**: for 2-decimal unit prices, the stored `totalHT` equals the
sum of the per-line totals rounded to 2 decimals, the stored `totalTVA`
is the stored `totalHT` times `rate/100` rounded to 2 decimals, and the
stored `totalTTC` is exactly the sum of the stored `totalHT` and
`totalTVA`. -/
theorem createMutation_totals (items : List FormItem) (rate : ℚ)
    (hp : ∀ it ∈ items, ∃ k : ℕ, it.priceHT = (k : ℚ) / 100) :
    (mutationTotalHT items =
      (items.map fun it => round2 ((it.quantity : ℚ) * it.priceHT)).sum) ∧
    mutationTotalTVA items rate = round2 (mutationTotalHT items * (rate / 100)) ∧
    mutationTotalTTC items rate = mutationTotalHT items + mutationTotalTVA items rate := by
  obtain ⟨n, hn⟩ := rawTotalHT_intMul items hp
  have hHT : mutationTotalHT items = rawTotalHT items := round2_intMul _ n hn
  have hlines : (items.map fun it => round2 ((it.quantity : ℚ) * it.priceHT)) =
      items.map fun it => (it.quantity : ℚ) * it.priceHT := by
    apply List.map_congr_left
    intro it hit
    obtain ⟨k, hk⟩ := hp it hit
    refine round2_intMul _ (it.quantity * k) ?_
    rw [hk]
    push_cast
    ring
  refine ⟨?_, ?_, ?_⟩
  · rw [hHT, hlines, rawTotalHT_eq_sum]
  · rw [mutationTotalTVA, rawTotalTVA, hHT]
  · rw [mutationTotalTTC, hHT, mutationTotalTVA]
    exact round2_add_intMul _ _ n hn

/-- Witness for C4 at the specification's two-line example: qty 3 at
1000 plus qty 1 at 500 under 18% gives totals 3500 / 630 / 4130. -/
theorem createMutation_totals_witness :
    (∀ it ∈ exampleItems, ∃ k : ℕ, it.priceHT = (k : ℚ) / 100) ∧
    ((mutationTotalHT exampleItems =
        (exampleItems.map fun it => round2 ((it.quantity : ℚ) * it.priceHT)).sum) ∧
      mutationTotalTVA exampleItems 18 = round2 (mutationTotalHT exampleItems * (18 / 100)) ∧
      mutationTotalTTC exampleItems 18 =
        mutationTotalHT exampleItems + mutationTotalTVA exampleItems 18) ∧
    mutationTotalHT exampleItems = 3500 ∧
    mutationTotalTVA exampleItems 18 = 630 ∧
    mutationTotalTTC exampleItems 18 = 4130 := by
  have hp : ∀ it ∈ exampleItems, ∃ k : ℕ, it.priceHT = (k : ℚ) / 100 := by
    intro it hit
    simp only [exampleItems, List.mem_cons, List.not_mem_nil, or_false] at hit
    rcases hit with h | h <;> subst h
    · exact ⟨100000, by norm_num⟩
    · exact ⟨50000, by norm_num⟩
  refine ⟨hp, createMutation_totals exampleItems 18 hp, ?_, ?_, ?_⟩ <;>
    norm_num [mutationTotalHT, mutationTotalTVA, mutationTotalTTC, rawTotalHT, rawTotalTVA,
      exampleItems, List.foldl_cons, List.foldl_nil, round2, round_eq]

/-- **C5**, counterexample: the server-side createInvoiceSchema accepts
and persists a request whose item list is empty, whose status is the
unknown string "bogus" and whose tax rate is 7 (outside
{3,5,10,15,18,21}); an item with quantity 0 and a negative unit price
also parses; and a status update carrying an unknown status string is
persisted rather than rejected. -/
theorem validation_accepts_invalid_input :
    (postInvoices "A" c5rawInv [] {}).isSome = true ∧
    ((postInvoices "A" c5rawInv [] {}).map fun r => (r.2.status, r.2.tvaRate)) =
      some ("bogus", 7) ∧
    (parseItem c5rawItem).isSome = true ∧
    (updateInvoice 7 { status := some "bogus" } "A" c5updb).invoices.map Invoice.status =
      ["bogus"] :=
  ⟨rfl, rfl, rfl, rfl⟩

/-- Every well-typed item (all required fields present) passes the zod
item schema. -/
theorem mapM_parseItem_isSome (items : List RawItem)
    (hits : ∀ it ∈ items, it.productName.isSome = true ∧ it.quantity.isSome = true ∧
      it.priceHT.isSome = true ∧ it.totalHT.isSome = true) :
    (items.mapM parseItem).isSome = true := by
  induction items with
  | nil => rfl
  | cons x l ih =>
    obtain ⟨hpn, hq, hph, hth⟩ := hits x (by simp)
    obtain ⟨a, ha⟩ := Option.isSome_iff_exists.mp hpn
    obtain ⟨b, hb⟩ := Option.isSome_iff_exists.mp hq
    obtain ⟨c, hc⟩ := Option.isSome_iff_exists.mp hph
    obtain ⟨d, hd⟩ := Option.isSome_iff_exists.mp hth
    have hx : (parseItem x).isSome = true := by
      simp only [parseItem]
      rw [ha, hb, hc, hd]
      rfl
    obtain ⟨y, hy⟩ := Option.isSome_iff_exists.mp hx
    have hl := ih fun it hit => hits it (by simp [hit])
    obtain ⟨ys, hys⟩ := Option.isSome_iff_exists.mp hl
    rw [List.mapM_cons, hy, hys]
    rfl

/-- **C5** (amended): server-side validation checks only that required
fields are present with the right primitive types; a request with an
empty item list, any quantity, any unit-price value, any tax-rate value
and any status string passes validation and is persisted — none of the
range conditions of the claim is enforced. -/
theorem validation_checks_presence_only (u : String) (r : RawInvoiceFields)
    (items : List RawItem) (db : DB)
    (hn : r.number.isSome = true) (hcl : r.clientId.isSome = true)
    (h1 : r.totalHT.isSome = true) (h2 : r.tvaRate.isSome = true)
    (h3 : r.totalTVA.isSome = true) (h4 : r.totalTTC.isSome = true)
    (hits : ∀ it ∈ items, it.productName.isSome = true ∧ it.quantity.isSome = true ∧
      it.priceHT.isSome = true ∧ it.totalHT.isSome = true) :
    (postInvoices u r items db).isSome = true := by
  obtain ⟨n0, hn0⟩ := Option.isSome_iff_exists.mp hn
  obtain ⟨c0, hc0⟩ := Option.isSome_iff_exists.mp hcl
  obtain ⟨v1, hv1⟩ := Option.isSome_iff_exists.mp h1
  obtain ⟨v2, hv2⟩ := Option.isSome_iff_exists.mp h2
  obtain ⟨v3, hv3⟩ := Option.isSome_iff_exists.mp h3
  obtain ⟨v4, hv4⟩ := Option.isSome_iff_exists.mp h4
  have hpf : (parseInvoiceFields r u).isSome = true := by
    simp only [parseInvoiceFields]
    rw [hn0, hc0, hv1, hv2, hv3, hv4]
    rfl
  obtain ⟨pinv, hpinv⟩ := Option.isSome_iff_exists.mp hpf
  obtain ⟨pits, hpits⟩ := Option.isSome_iff_exists.mp (mapM_parseItem_isSome items hits)
  simp only [postInvoices]
  rw [hpinv, hpits]
  rfl

/-- Witness for the amended C5: the bogus request (empty status check,
tax rate 7, item with quantity 0 and negative price) passes validation
and is persisted. -/
theorem validation_checks_presence_only_witness :
    (postInvoices "A" c5rawInv [c5rawItem] {}).isSome = true :=
  validation_checks_presence_only "A" c5rawInv [c5rawItem] {} rfl rfl rfl rfl rfl rfl
    (by intro it hit; simp only [List.mem_singleton] at hit; subst hit; exact ⟨rfl, rfl, rfl, rfl⟩)

/-- One pass of the stock loop relates each product row to its previous
value by `stockRel`. -/
theorem stockStep_stockRel (u : String) (db : DB) (it : InvoiceItem)
    (hq : 0 ≤ it.quantity) :
    List.Forall₂ stockRel (stockStep u db it).products db.products := by
  simp only [stockStep, updateWhere]
  refine List.forall₂_map_left_iff.mpr (List.forall₂_same.mpr ?_)
  intro p hp
  by_cases h : ((it.productId.getD 0 == p.id) && (p.userId == u)) = true
  · rw [if_pos h]
    intro hs
    simp only [stockDecrement]
    exact ⟨max_le hs (by omega), le_max_left 0 _⟩
  · rw [if_neg h]
    intro hs
    exact ⟨le_refl _, hs⟩

/-- `stockRel` composes across successive decrements. -/
theorem forall₂_stockRel_trans {l1 l2 l3 : List Product}
    (h1 : List.Forall₂ stockRel l1 l2) (h2 : List.Forall₂ stockRel l2 l3) :
    List.Forall₂ stockRel l1 l3 := by
  induction h2 generalizing l1 with
  | nil =>
    cases h1
    exact .nil
  | cons hbc hl ih =>
    cases h1 with
    | cons hab hl1 =>
      refine .cons (fun hc => ?_) (ih hl1)
      obtain ⟨hle, hnn⟩ := hbc hc
      obtain ⟨hle2, hnn2⟩ := hab hnn
      exact ⟨le_trans hle2 hle, hnn2⟩

/-- Any sequence of clamped decrements relates the product table to its
initial value by `stockRel`. -/
theorem foldl_stockStep_stockRel (u : String) (its : List InvoiceItem)
    (hq : ∀ it ∈ its, 0 ≤ it.quantity) (db : DB) :
    List.Forall₂ stockRel (its.foldl (stockStep u) db).products db.products := by
  induction its generalizing db with
  | nil => exact List.forall₂_same.mpr fun p hp hs => ⟨le_refl _, hs⟩
  | cons x l ih =>
    rw [List.foldl_cons]
    refine forall₂_stockRel_trans
      (ih (fun it hit => hq it (by simp [hit])) (stockStep u db x)) ?_
    exact stockStep_stockRel u db x (hq x (by simp))

/-- Discharge the `stockRel` premise when every prior stock is
non-negative. -/
theorem forall₂_stockRel_strengthen {l1 l2 : List Product}
    (h : List.Forall₂ stockRel l1 l2) (hs : ∀ p ∈ l2, 0 ≤ p.stock) :
    List.Forall₂ (fun q p => q.stock ≤ p.stock ∧ 0 ≤ q.stock) l1 l2 := by
  induction h with
  | nil => exact .nil
  | cons hab hl ih =>
    exact .cons (hab (hs _ (by simp))) (ih fun p hp => hs p (by simp [hp]))

/-- **C6**: the Stock Adjustment Operation — run with the non-negative
quantities of a stored invoice over products with non-negative stock —
never drives any stock below zero and never increases any stock: each
product row afterwards has `0 ≤ stock ≤ previous stock`, each decrement
being the clamp `max 0 (stock - quantity)`. -/
theorem stock_nonneg_and_never_increases (items : List InvoiceItem) (u : String) (db : DB)
    (hq : ∀ it ∈ items, 0 ≤ it.quantity)
    (hs : ∀ p ∈ db.products, 0 ≤ p.stock) :
    List.Forall₂ (fun q p => q.stock ≤ p.stock ∧ 0 ≤ q.stock)
      (updateStockAfterInvoiceCreation items u db).products db.products :=
  forall₂_stockRel_strengthen
    (foldl_stockStep_stockRel u _ (fun it hit => hq it (List.mem_of_mem_filter hit)) db) hs

/-- Witness for C6 at the specification's scenario: stock 2, requested
quantity 5 — the resulting stock is 0, not -3. -/
theorem stock_nonneg_and_never_increases_witness :
    (∀ it ∈ [w6item], 0 ≤ it.quantity) ∧
    (∀ p ∈ w6db.products, 0 ≤ p.stock) ∧
    List.Forall₂ (fun q p => q.stock ≤ p.stock ∧ 0 ≤ q.stock)
      (updateStockAfterInvoiceCreation [w6item] "A" w6db).products w6db.products ∧
    (updateStockAfterInvoiceCreation [w6item] "A" w6db).products.map Product.stock = [0] := by
  refine ⟨by decide, by decide, ?_, rfl⟩
  exact stock_nonneg_and_never_increases [w6item] "A" w6db (by decide) (by decide)

/-- **C7**: a genuine pending→paid transition appends exactly one Sale
per line item of the invoice with a non-null product reference — each
copying the item's quantity, unit price and stored line total — and no
Sale for items without a product reference. -/
theorem settlement_creates_one_sale_per_product_item
    (db : DB) (id : Nat) (u : String) (patch : InvoicePatch) (c : Invoice) (s : String)
    (hc : getInvoice id u db = some c) (hnp : paidLike c.status = false)
    (h2 : patch.status = some s) (h3 : paidLike s = true) :
    (updateInvoice id patch u db).sales =
      db.sales ++
        ((db.invoiceItems.filter fun it => it.invoiceId == id).filter
            fun it => it.productId.isSome).map (saleOfItem id u) := by
  refine updateInvoice_fired_sales db id u patch s h2 h3 ?_
  intro c0 hc0
  rw [hc] at hc0
  cases hc0
  exact hnp

/-- Witness for C7: paying the pending invoice 1 — one item referencing
product 2 (qty 3 at 1000), one ad-hoc item — creates exactly the single
sale copying quantity 3, unit price 1000 and total 3000. -/
theorem settlement_creates_one_sale_witness :
    (updateInvoice 1 w3patch "A" w7db).sales =
      w7db.sales ++
        ((w7db.invoiceItems.filter fun it => it.invoiceId == 1).filter
            fun it => it.productId.isSome).map (saleOfItem 1 "A") ∧
    (updateInvoice 1 w3patch "A" w7db).sales =
      [{ invoiceId := 1, productId := 2, quantity := 3, unitPrice := 1000, total := 3000,
         userId := "A" }] := by
  refine ⟨?_, rfl⟩
  exact settlement_creates_one_sale_per_product_item w7db 1 "A" w3patch
    { id := 1, number := "FAC-2025-001", clientId := 1, status := "en_attente",
      totalHT := 3500, tvaRate := 18, totalTVA := 630, totalTTC := 4130, userId := "A" }
    "payee" rfl rfl rfl rfl

/-- **C8**, counterexample: an invoice created directly in the paid
state with a product-referencing line item present has no Sale row at
all — creation never materializes sales — refuting the claimed
"Sale exists if the invoice reached paid at least once with the item
present". -/
theorem paid_at_creation_has_no_sales :
    c8inv.status = "payee" ∧
    c8item.productId = some 1 ∧
    (createInvoice c8inv [c8item] c1db).2.status = "payee" ∧
    (createInvoice c8inv [c8item] c1db).1.invoiceItems ≠ [] ∧
    (createInvoice c8inv [c8item] c1db).1.sales = [] :=
  ⟨rfl, rfl, rfl, by decide, rfl⟩

/-- **C8** (amended): sales provenance.  Invoice creation never creates
Sale rows (even for an invoice created directly in the paid state); a
status update appends new Sale rows — one per product-referencing item —
exactly when the pending→paid guard fires, and otherwise leaves the
sales table unchanged; sales are removed only by invoice deletion,
which removes exactly the sales of the deleted invoice. -/
theorem sales_provenance (db : DB) (inv : InsertInvoice) (items : List InsertItem)
    (id : Nat) (patch : InvoicePatch) (u : String) :
    ((createInvoice inv items db).1.sales = db.sales) ∧
    ((updateInvoice id patch u db).sales =
      if settlementGuard id patch u db then
        db.sales ++
          ((db.invoiceItems.filter fun it => it.invoiceId == id).filter
              fun it => it.productId.isSome).map (saleOfItem id u)
      else db.sales) ∧
    ((deleteInvoice id u db).sales = db.sales.filter fun s0 => !(s0.invoiceId == id)) := by
  refine ⟨?_, ?_, rfl⟩
  · by_cases h : items.length > 0
    · simp [createInvoice, h, updateStockAfterInvoiceCreation, foldl_stockStep_sales]
    · simp [createInvoice, h]
  · by_cases hg : settlementGuard id patch u db = true
    · rw [if_pos hg]
      cases hps : patch.status with
      | none => simp [settlementGuard, hps] at hg
      | some s =>
        simp only [settlementGuard, hps, Bool.and_eq_true] at hg
        obtain ⟨hs, hcur0⟩ := hg
        refine updateInvoice_fired_sales db id u patch s hps hs ?_
        intro c0 hc0
        rw [hc0] at hcur0
        simpa using hcur0
    · rw [if_neg hg]
      simp only [updateInvoice]
      rw [if_neg (by simpa [settlementGuard] using hg)]

/-- **C9**: deleting an invoice removes every Sale and every InvoiceItem
referencing it and the invoice row itself (its lookup afterwards returns
not-found), and leaves the product table — in particular every stock
value — untouched. -/
theorem deleteInvoice_cascade (db : DB) (id : Nat) (u : String) :
    ((deleteInvoice id u db).sales = db.sales.filter fun s => !(s.invoiceId == id)) ∧
    ((deleteInvoice id u db).invoiceItems =
      db.invoiceItems.filter fun it => !(it.invoiceId == id)) ∧
    getInvoice id u (deleteInvoice id u db) = none ∧
    (deleteInvoice id u db).products = db.products := by
  refine ⟨rfl, rfl, ?_, rfl⟩
  simp only [getInvoice, deleteInvoice]
  rw [List.find?_eq_none]
  intro i hi
  have h2 := (List.mem_filter.mp hi).2
  simp only [Bool.not_eq_true'] at h2
  simp [h2]

theorem updateInvoice_invoices (db : DB) (id : Nat) (u : String) (patch : InvoicePatch) :
    (updateInvoice id patch u db).invoices =
      updateWhere (fun i => i.id == id && i.userId == u) (applyInvoicePatch patch)
        db.invoices := by
  simp only [updateInvoice]
  split
  · rw [createSalesFromInvoice_invoices]
  · rfl

/-- **C10**: the partial-update operations accept the owning-tenant
field in the patch body: when the patch carries a userId value, the
stored row's userId afterwards equals that value — the caller reassigns
the entity to another tenant — for clients, products, categories and
invoices alike. -/
theorem update_patch_reassigns_owner (db : DB) (id : Nat) (u v : String)
    (cp : ClientPatch) (pp : ProductPatch) (gp : CategoryPatch) (ip : InvoicePatch)
    (c : Client) (p : Product) (g : Category) (i : Invoice)
    (hcp : cp.userId = some v) (hpp : pp.userId = some v)
    (hgp : gp.userId = some v) (hip : ip.userId = some v)
    (hc : db.clients.find? (fun x => x.id == id) = some c) (hcu : c.userId = u)
    (hpr : db.products.find? (fun x => x.id == id) = some p) (hpu : p.userId = u)
    (hg : db.categories.find? (fun x => x.id == id) = some g) (hgu : g.userId = u)
    (hi : db.invoices.find? (fun x => x.id == id) = some i) (hiu : i.userId = u) :
    (((updateClient id cp u db).clients.find? fun x => x.id == id).map Client.userId =
      some v) ∧
    (((updateProduct id pp u db).products.find? fun x => x.id == id).map Product.userId =
      some v) ∧
    (((updateCategory id gp u db).categories.find? fun x => x.id == id).map Category.userId =
      some v) ∧
    (((updateInvoice id ip u db).invoices.find? fun x => x.id == id).map Invoice.userId =
      some v) := by
  refine ⟨?_, ?_, ?_, ?_⟩
  · have e1 : (updateClient id cp u db).clients =
        updateWhere (fun x => x.id == id && x.userId == u) (applyClientPatch cp)
          db.clients := rfl
    rw [e1, find?_updateWhere _ _ _ (fun a => by
        by_cases h : ((a.id == id) && (a.userId == u)) = true <;>
          simp [h, applyClientPatch]), hc, Option.map_some']
    have hcid : (c.id == id) = true := by simpa using List.find?_some hc
    rw [if_pos (by simp [hcid, hcu])]
    simp [applyClientPatch, hcp]
  · have e1 : (updateProduct id pp u db).products =
        updateWhere (fun x => x.id == id && x.userId == u) (applyProductPatch pp)
          db.products := rfl
    rw [e1, find?_updateWhere _ _ _ (fun a => by
        by_cases h : ((a.id == id) && (a.userId == u)) = true <;>
          simp [h, applyProductPatch]), hpr, Option.map_some']
    have hpid : (p.id == id) = true := by simpa using List.find?_some hpr
    rw [if_pos (by simp [hpid, hpu])]
    simp [applyProductPatch, hpp]
  · have e1 : (updateCategory id gp u db).categories =
        updateWhere (fun x => x.id == id && x.userId == u) (applyCategoryPatch gp)
          db.categories := rfl
    rw [e1, find?_updateWhere _ _ _ (fun a => by
        by_cases h : ((a.id == id) && (a.userId == u)) = true <;>
          simp [h, applyCategoryPatch]), hg, Option.map_some']
    have hgid : (g.id == id) = true := by simpa using List.find?_some hg
    rw [if_pos (by simp [hgid, hgu])]
    simp [applyCategoryPatch, hgp]
  · rw [updateInvoice_invoices, find?_updateWhere _ _ _ (fun a => by
        by_cases h : ((a.id == id) && (a.userId == u)) = true <;>
          simp [h, applyInvoicePatch]), hi, Option.map_some']
    have hiid : (i.id == id) = true := by simpa using List.find?_some hi
    rw [if_pos (by simp [hiid, hiu])]
    simp [applyInvoicePatch, hip]

/-- Witness for C10: each entity of tenant A, patched with
`userId := "B"`, is afterwards stored as owned by tenant B. -/
theorem update_patch_reassigns_owner_witness :
    (((updateClient 1 { userId := some "B" } "A" w10db).clients.find? fun x => x.id == 1).map
      Client.userId = some "B") ∧
    (((updateProduct 1 { userId := some "B" } "A" w10db).products.find? fun x => x.id == 1).map
      Product.userId = some "B") ∧
    (((updateCategory 1 { userId := some "B" } "A" w10db).categories.find?
        fun x => x.id == 1).map Category.userId = some "B") ∧
    (((updateInvoice 1 { userId := some "B" } "A" w10db).invoices.find? fun x => x.id == 1).map
      Invoice.userId = some "B") :=
  update_patch_reassigns_owner w10db 1 "A" "B"
    { userId := some "B" } { userId := some "B" } { userId := some "B" } { userId := some "B" }
    { id := 1, name := "Alice", userId := "A" }
    { id := 1, name := "Widget", priceHT := 100, stock := 5, userId := "A" }
    { id := 1, name := "General", userId := "A" }
    { id := 1, number := "FAC-2025-001", clientId := 1, status := "en_attente", totalHT := 10,
      tvaRate := 18, totalTVA := 2, totalTTC := 12, userId := "A" }
    rfl rfl rfl rfl rfl rfl rfl rfl rfl rfl rfl rfl

end GestionPro
